import Mathlib

/-!
# buna: suggestion lookups and coffee workflows

A shallow embedding of `input_suggestions.go` (the six read-only lookups that
feed the interactive prompts) and of `coffee.go` (the add-coffee and
retrieve-coffee workflows), followed by theorems about them.

* Go `error` values are embedded as `GoError` (a base error or an `fmt.Errorf`
  wrapper built with `%w`).
* Go functions returning `(T, error)` return a pair `T × Option GoError`;
  a nil slice is the empty list (every slice here is built by `append` from
  nil, so it is nil exactly when it has no element).
* Go `int` values are `Int`.
* The SQL text of each lookup is embedded by its SQLite evaluation: the
  joined rows and the `WHERE` filter, produced in the order of the query
  plan, `DISTINCT` on the selected value as the rows are produced, the sorter
  of `ORDER BY ... DESC`, and `LIMIT`. The query plan is chosen by SQLite from
  the schema and its statistics, which are not in the sources, so it is a
  component of the transaction handle.
-/

namespace Buna

/-! ## Errors -/

/-- Go error values: `base` is an error made by `errors.New` or handed up by the
storage driver, `wrap pre inner` is `fmt.Errorf(pre + "%w", inner)`. -/
inductive GoError where
  | base (msg : String)
  | wrap (pre : String) (inner : GoError)
deriving DecidableEq

/-- The text of `err.Error()`. -/
def GoError.message : GoError → String
  | .base msg => msg
  | .wrap pre inner => pre ++ inner.message

/-- The error `errors.Unwrap` gives back. -/
def GoError.unwrap : GoError → Option GoError
  | .base _ => none
  | .wrap _ inner => some inner

/-! ## Stored state -/

/-- A row of table `coffees`, with the columns the lookups read. -/
structure CoffeeRow where
  id : Int
  name : String
  roaster : String
deriving DecidableEq

/-- A row of table `brewing_methods` or of table `grinders`. -/
structure NamedRow where
  id : Int
  name : String
deriving DecidableEq

/-- A row of table `brewings` (a brewing session). -/
structure BrewingRow where
  id : Int
  coffee_id : Int
  method_id : Int
  grinder_id : Int
  coffee_grams : Int
  water_grams : Int
deriving DecidableEq

/-- The four tables the lookups read. -/
structure Store where
  coffees : List CoffeeRow
  brewing_methods : List NamedRow
  grinders : List NamedRow
  brewings : List BrewingRow
deriving DecidableEq

/-! ## SQL building blocks -/

/-- The clause `ORDER BY key DESC`. -/
def orderByDesc {β : Type} (key : β → Int) (rows : List β) : List β :=
  rows.insertionSort (fun a b => key b ≤ key a)

/-- The order in which the query plan produces the joined rows: `plan i` is the
position of session `i` in the walk over `brewings` that SQLite chose. -/
def planOrder {α : Type} (plan : Int → Int) (rows : List (Int × α)) : List (Int × α) :=
  rows.insertionSort (fun a b => plan a.1 ≤ plan b.1)

/-- The clause `SELECT DISTINCT` on the selected value: the rows are taken as
they are produced and a row whose value was already produced is dropped, so the
first produced row of each value is the one kept, with its session id. -/
def sqlDistinctRows {α : Type} [DecidableEq α] : List (Int × α) → List (Int × α)
  | [] => []
  | r :: rs => r :: (sqlDistinctRows rs).filter (fun q => q.2 ≠ r.2)

/-- The clause `LIMIT n` of SQLite: a negative `n` means no limit. -/
def sqlLimit {α : Type} (limit : Int) (rows : List α) : List α :=
  if limit < 0 then rows else rows.take limit.toNat

/-- The query `SELECT DISTINCT value ... ORDER BY b.id DESC LIMIT :limit` over rows that
carry the session id `b.id` next to the selected value. SQLite produces the rows
in the order of its plan, drops a row whose selected value was already produced,
sorts the rows kept by `b.id` descending (the sort key is no selected column, so
the id sorted on is that of the row kept) and cuts the result to `limit` rows.
When the plan walks `brewings` by descending id the sort changes nothing. -/
def selectDistinctRecent {α : Type} [DecidableEq α] (plan : Int → Int)
    (rows : List (Int × α)) (limit : Int) : List α :=
  sqlLimit limit ((orderByDesc Prod.fst (sqlDistinctRows (planOrder plan rows))).map Prod.snd)

/-- The rows of `FROM brewings AS b INNER JOIN coffees AS c ON b.coffee_id = c.id`,
keeping `(b.id, c.name)`. -/
def coffeeNameRows (s : Store) : List (Int × String) :=
  s.brewings.flatMap fun b =>
    (s.coffees.filter fun c => b.coffee_id = c.id).map fun c => (b.id, c.name)

/-- The rows of `FROM brewings AS b INNER JOIN brewing_methods AS m ON b.method_id = m.id`,
keeping `(b.id, m.name)`. -/
def methodNameRows (s : Store) : List (Int × String) :=
  s.brewings.flatMap fun b =>
    (s.brewing_methods.filter fun m => b.method_id = m.id).map fun m => (b.id, m.name)

/-- The rows of `FROM brewings AS b INNER JOIN grinders AS g ON b.grinder_id = g.id`,
keeping `(b.id, g.name)`. -/
def grinderNameRows (s : Store) : List (Int × String) :=
  s.brewings.flatMap fun b =>
    (s.grinders.filter fun g => b.grinder_id = g.id).map fun g => (b.id, g.name)

/-- The rows of `FROM brewings AS b INNER JOIN brewing_methods AS m ON b.method_id = m.id
INNER JOIN grinders AS g ON b.grinder_id = g.id
WHERE m.name = :brewingMethodName AND g.name = :coffeeGrinderName`. -/
def methodGrinderJoin (s : Store) (brewingMethodName coffeeGrinderName : String) :
    List (BrewingRow × NamedRow × NamedRow) :=
  (s.brewings.flatMap fun b =>
    (s.brewing_methods.filter fun m => b.method_id = m.id).flatMap fun m =>
      (s.grinders.filter fun g => b.grinder_id = g.id).map fun g => (b, m, g)).filter
    fun r => r.2.1.name = brewingMethodName ∧ r.2.2.name = coffeeGrinderName

/-- The joined rows of the coffee weight lookup, keeping `(b.id, b.coffee_grams)`. -/
def coffeeWeightRows (s : Store) (brewingMethodName coffeeGrinderName : String) :
    List (Int × Int) :=
  (methodGrinderJoin s brewingMethodName coffeeGrinderName).map
    fun r => (r.1.id, r.1.coffee_grams)

/-- The joined rows of the water weight lookup, keeping `(b.id, b.water_grams)`. -/
def waterWeightRows (s : Store) (brewingMethodName coffeeGrinderName : String) :
    List (Int × Int) :=
  (methodGrinderJoin s brewingMethodName coffeeGrinderName).map
    fun r => (r.1.id, r.1.water_grams)

/-- The query `SELECT roaster FROM coffees WHERE name = :name ORDER BY id DESC LIMIT :limit`. -/
def selectRoasters (s : Store) (name : String) (limit : Int) : List String :=
  sqlLimit limit
    ((orderByDesc CoffeeRow.id (s.coffees.filter fun c => c.name = name)).map CoffeeRow.roaster)

/-! ## Transactions -/

/-- A transaction handle `*sql.Tx`: the committed tables it reads, the query
plan SQLite runs the lookups with (the position of each session in the walk
over `brewings`), and the failures the driver may report on it (`QueryContext`
failing, `rows.Scan` failing at a row index, the iteration stopping early at a
row index with `rows.Err()` set). -/
structure Tx where
  store : Store
  plan : Int → Int
  queryErr : Option GoError
  scanErr : Option (Nat × GoError)
  rowsErr : Option (Nat × GoError)

/-- The loop `for rows.Next() ... rows.Scan(&v) ... append(vs, v)`: `i` is the
index of the next row, `acc` the slice built so far. -/
def scanLoop {α : Type} (scanErr : Option (Nat × GoError)) :
    Nat → List α → List α → List α × Option GoError
  | _, [], acc => (acc, none)
  | i, r :: rest, acc =>
    match scanErr with
    | some (k, e) =>
      if k = i then (acc, some (.wrap "buna: input_suggestions: failed to scan row: " e))
      else scanLoop scanErr (i + 1) rest (acc ++ [r])
    | none => scanLoop scanErr (i + 1) rest (acc ++ [r])

/-- The body of the closure every lookup hands to `TransactContext`: run the
query (its rows are `result`), scan the rows into the captured slice, check
`rows.Err()`. `queryMsg` is the text of the query failure of that lookup. -/
def queryBody {α : Type} (tx : Tx) (queryMsg : String) (result : List α) (captured : List α) :
    List α × Option GoError :=
  match tx.queryErr with
  | some e => (captured, some (.wrap queryMsg e))
  | none =>
    let delivered :=
      match tx.rowsErr with
      | some (k, _) => result.take k
      | none => result
    match scanLoop tx.scanErr 0 delivered captured with
    | (vs, some e) => (vs, some e)
    | (vs, none) =>
      match tx.rowsErr with
      | some (_, e) => (vs, some (.wrap "buna: input_suggestions: failed to scan last row: " e))
      | none => (vs, none)

/-- The storage handle: the transaction it opens, and the failures of opening
and of committing it. -/
structure SQLiteDB where
  beginErr : Option GoError
  tx : Tx
  commitErr : Option GoError

/-- Modelled from the spec: the implementation of `TransactContext` is not among
the sources (only its declaration in the `DB` interface is). "Acquire a
transaction handle, invoke the caller-supplied logic with it, commit on success,
roll back on any error". `captured` is the variable the closure writes to. -/
def SQLiteDB.TransactContext {σ : Type} (s : SQLiteDB)
    (f : Tx → σ → σ × Option GoError) (captured : σ) : σ × Option GoError :=
  match s.beginErr with
  | some e => (captured, some e)
  | none =>
    match f s.tx captured with
    | (v, some e) => (v, some e)
    | (v, none) =>
      match s.commitErr with
      | some e => (v, some e)
      | none => (v, none)

/-! ## The lookups of `input_suggestions.go` -/

/-- The Go method `getMostRecentBrewedCoffeeNames`. -/
def SQLiteDB.getMostRecentBrewedCoffeeNames (s : SQLiteDB) (limit : Int) :
    List String × Option GoError :=
  match s.TransactContext (fun tx names =>
      queryBody tx "buna: input_suggestions: failed to retrieve coffee name rows: "
        (selectDistinctRecent tx.plan (coffeeNameRows tx.store) limit) names) [] with
  | (_, some err) =>
    ([], some (.wrap
      "buna: input_suggestions: getMostRecentBrewedCoffeeNames transaction failed: " err))
  | (names, none) => (names, none)

/-- The Go method `getMostRecentlyUsedBrewingMethodNames`. -/
def SQLiteDB.getMostRecentlyUsedBrewingMethodNames (s : SQLiteDB) (limit : Int) :
    List String × Option GoError :=
  match s.TransactContext (fun tx names =>
      queryBody tx "buna: input_suggestions: failed to retrieve brewing method name rows: "
        (selectDistinctRecent tx.plan (methodNameRows tx.store) limit) names) [] with
  | (_, some err) =>
    ([], some (.wrap
      "buna: input_suggestions: getMostRecentlyUsedBrewingMethodNames transaction failed: " err))
  | (names, none) => (names, none)

/-- The Go method `getMostRecentlyUsedCoffeeGrinderNames`. -/
def SQLiteDB.getMostRecentlyUsedCoffeeGrinderNames (s : SQLiteDB) (limit : Int) :
    List String × Option GoError :=
  match s.TransactContext (fun tx names =>
      queryBody tx "buna: input_suggestions: failed to retrieve coffee grinder name rows: "
        (selectDistinctRecent tx.plan (grinderNameRows tx.store) limit) names) [] with
  | (_, some err) =>
    ([], some (.wrap
      "buna: input_suggestions: getMostRecentlyUsedCoffeeGrinderNames transaction failed: " err))
  | (names, none) => (names, none)

/-- The Go method `getMostRecentlyUsedCoffeeWeights`. -/
def SQLiteDB.getMostRecentlyUsedCoffeeWeights (s : SQLiteDB)
    (brewingMethodName coffeeGrinderName : String) (limit : Int) :
    List Int × Option GoError :=
  match s.TransactContext (fun tx weights =>
      queryBody tx "buna: input_suggestions: failed to retrieve coffee weight rows: "
        (selectDistinctRecent tx.plan (coffeeWeightRows tx.store brewingMethodName coffeeGrinderName)
          limit) weights) [] with
  | (_, some err) =>
    ([], some (.wrap
      "buna: input_suggestions: getMostRecentlyUsedCoffeeWeights transaction failed: " err))
  | (weights, none) => (weights, none)

/-- The Go method `getMostRecentlyUsedWaterWeights`. Its failure text is the one
in the source, which names `getMostRecentlyUsedCoffeeWeights`. -/
def SQLiteDB.getMostRecentlyUsedWaterWeights (s : SQLiteDB)
    (brewingMethodName coffeeGrinderName : String) (limit : Int) :
    List Int × Option GoError :=
  match s.TransactContext (fun tx weights =>
      queryBody tx "buna: input_suggestions: failed to retrieve coffee weight rows: "
        (selectDistinctRecent tx.plan (waterWeightRows tx.store brewingMethodName coffeeGrinderName)
          limit) weights) [] with
  | (_, some err) =>
    ([], some (.wrap
      "buna: input_suggestions: getMostRecentlyUsedCoffeeWeights transaction failed: " err))
  | (weights, none) => (weights, none)

/-- The Go method `getRoastersByCoffeeName`. -/
def SQLiteDB.getRoastersByCoffeeName (s : SQLiteDB) (name : String) (limit : Int) :
    List String × Option GoError :=
  match s.TransactContext (fun tx roasters =>
      queryBody tx "buna: input_suggestions: failed to retrieve coffee roaster rows: "
        (selectRoasters tx.store name limit) roasters) [] with
  | (_, some err) =>
    ([], some (.wrap
      "buna: input_suggestions: getRoastersByCoffeeName transaction failed: " err))
  | (roasters, none) => (roasters, none)

/-! ## Scenarios -/

/-- A handle on which no operation fails, with the query plan `plan`. -/
def SQLiteDB.planned (st : Store) (plan : Int → Int) : SQLiteDB :=
  ⟨none, ⟨st, plan, none, none, none⟩, none⟩

/-- A handle on which no operation fails and whose plan walks `brewings` by
descending id (the plan of SQLite on tables with no index but the primary keys
and no statistics). -/
def SQLiteDB.healthy (st : Store) : SQLiteDB :=
  SQLiteDB.planned st (fun i => -i)

/-- A handle on which no operation fails and whose plan walks `brewings` by
ascending id (the plan of SQLite with an index on `brewing_methods(name)` and an
index on `brewings(method_id)`: the sessions of a method come out of the index
by ascending id, and the sorter of `ORDER BY` follows). -/
def SQLiteDB.indexed (st : Store) : SQLiteDB :=
  SQLiteDB.planned st (fun i => i)

/-- Three sessions with method "V60" and grinder "Comandante" and coffee weights
15, 18, 15 in insertion order, a fourth with another method and grinder. -/
def v60Store : Store :=
  ⟨[⟨1, "A", "R1"⟩, ⟨2, "A", "R2"⟩, ⟨3, "B", "R1"⟩],
   [⟨1, "V60"⟩, ⟨2, "Aeropress"⟩],
   [⟨1, "Comandante"⟩, ⟨2, "Timemore"⟩],
   [⟨1, 1, 1, 1, 15, 250⟩, ⟨2, 2, 1, 1, 18, 300⟩, ⟨3, 3, 1, 1, 15, 240⟩,
    ⟨4, 1, 2, 2, 11, 200⟩]⟩

/-- The shape shared by the six lookups: run the closure in a transaction, wrap a
failure with the text `failMsg`, hand back the captured slice otherwise. -/
def runLookup {α : Type} (s : SQLiteDB) (queryMsg failMsg : String) (q : Tx → List α) :
    List α × Option GoError :=
  match s.TransactContext (fun tx vs => queryBody tx queryMsg (q tx) vs) [] with
  | (_, some err) => ([], some (.wrap failMsg err))
  | (vs, none) => (vs, none)

/-! ## Vocabulary of the properties -/

/-- Primary keys: within each table no two rows share an id. -/
def Store.Keyed (s : Store) : Prop :=
  (s.brewings.map BrewingRow.id).Nodup ∧ (s.coffees.map CoffeeRow.id).Nodup ∧
    (s.brewing_methods.map NamedRow.id).Nodup ∧ (s.grinders.map NamedRow.id).Nodup

instance Store.decidableKeyed (s : Store) : Decidable s.Keyed := by
  unfold Store.Keyed
  infer_instance

/-- Session `i` brewed a coffee named `x`. -/
def brewedCoffee (s : Store) (i : Int) (x : String) : Prop :=
  ∃ b ∈ s.brewings, ∃ c ∈ s.coffees, b.id = i ∧ b.coffee_id = c.id ∧ c.name = x

/-- Session `i` used a brewing method named `x`. -/
def usedMethod (s : Store) (i : Int) (x : String) : Prop :=
  ∃ b ∈ s.brewings, ∃ m ∈ s.brewing_methods, b.id = i ∧ b.method_id = m.id ∧ m.name = x

/-- Session `i` used a grinder named `x`. -/
def usedGrinder (s : Store) (i : Int) (x : String) : Prop :=
  ∃ b ∈ s.brewings, ∃ g ∈ s.grinders, b.id = i ∧ b.grinder_id = g.id ∧ g.name = x

/-- Session `i`, whose method is named exactly `m` and whose grinder is named
exactly `g`, used `w` grams of coffee. -/
def usedCoffeeWeight (s : Store) (m g : String) (i : Int) (w : Int) : Prop :=
  ∃ b ∈ s.brewings, ∃ mr ∈ s.brewing_methods, ∃ gr ∈ s.grinders,
    b.id = i ∧ b.method_id = mr.id ∧ b.grinder_id = gr.id ∧ mr.name = m ∧ gr.name = g ∧
      b.coffee_grams = w

/-- Session `i`, whose method is named exactly `m` and whose grinder is named
exactly `g`, used `w` grams of water. -/
def usedWaterWeight (s : Store) (m g : String) (i : Int) (w : Int) : Prop :=
  ∃ b ∈ s.brewings, ∃ mr ∈ s.brewing_methods, ∃ gr ∈ s.grinders,
    b.id = i ∧ b.method_id = mr.id ∧ b.grinder_id = gr.id ∧ mr.name = m ∧ gr.name = g ∧
      b.water_grams = w

/-- Value `x` was used more recently than `y`: the largest session id at which
`x` occurs is greater than the largest session id at which `y` occurs
(`occ i v` says that `v` occurs at session `i`). -/
def MoreRecent {α : Type} (occ : Int → α → Prop) (x y : α) : Prop :=
  ∃ i, occ i x ∧ ∀ j, occ j y → j < i

/-- The list `ranking` holds every value that occurs, once, most recently used
first: the value at position `i` precedes the value at position `j` exactly
when it was used more recently. -/
def IsRecencyRanking {α : Type} (occ : Int → α → Prop) (ranking : List α) : Prop :=
  ranking.Nodup ∧ (∀ x, x ∈ ranking ↔ ∃ i, occ i x) ∧
    ∀ (i j : Nat) (hi : i < ranking.length) (hj : j < ranking.length),
      i < j ↔ MoreRecent occ (ranking.get ⟨i, hi⟩) (ranking.get ⟨j, hj⟩)

/-! ## The workflows of `coffee.go` -/

/-- The Go struct `coffee`. -/
structure coffee where
  name : String
  roaster : String
  region : String
  variety : String
  method : String
  decaf : Bool
deriving DecidableEq

/-- The zero value `coffee{}`. -/
def coffee.zero : coffee := ⟨"", "", "", "", "", false⟩

/-- What the workflows act on. None of their collaborators is among the sources
(the prompt helpers `validateStrInput`, `validateBoolInput`, `validateIntInput`,
`getIntSelection`, `displayIntOptions`, the methods `insertCoffee` and
`getCoffeesByLastAdded` of the handle, `terminal.GetSize`, the constant
`quitMsg`), so what each of them gives back is a field here: the prompt helpers
answer by the number of prompts asked so far, and the calls made are logged. -/
structure World where
  quitMsg : String
  strInput : Nat → String × Bool
  boolInput : Nat → Bool × Bool
  intInput : Nat → Int × Bool
  intSelection : Nat → Int × Bool × Option GoError
  displayOptionsErr : Option GoError
  insertResult : coffee → Option GoError
  lastAdded : Int → List coffee × Option GoError
  terminalSize : Int × Option GoError
  asked : Nat
  out : List String
  insertCalls : List coffee
  lastAddedCalls : List Int
  rendered : List (List coffee × Int)

/-- The call `fmt.Print(s)`. -/
def World.print (w : World) (s : String) : World :=
  { w with out := w.out ++ [s] }

/-- The call `fmt.Println(s)`. -/
def World.println (w : World) (s : String) : World :=
  { w with out := w.out ++ [s ++ "\n"] }

/-- The call `validateStrInput(quitStr, optional, nil, nil)`: the string entered
and whether the user quit. -/
def validateStrInput (w : World) (_optional : Bool) : (String × Bool) × World :=
  (w.strInput w.asked, { w with asked := w.asked + 1 })

/-- The call `validateBoolInput(quitStr, optional)`. -/
def validateBoolInput (w : World) (_optional : Bool) : (Bool × Bool) × World :=
  (w.boolInput w.asked, { w with asked := w.asked + 1 })

/-- The call `validateIntInput(quitStr, optional, min, max, excluded)`. -/
def validateIntInput (w : World) (_optional : Bool) (_min _max : Int) (_excluded : List Int) :
    (Int × Bool) × World :=
  (w.intInput w.asked, { w with asked := w.asked + 1 })

/-- The call `displayIntOptions(options)`. -/
def displayIntOptions (w : World) (_options : List (Int × String)) : Option GoError × World :=
  (w.displayOptionsErr, w)

/-- The call `getIntSelection(options, quitStr)`: the selection, whether the user
quit, and an error. -/
def getIntSelection (w : World) (_options : List (Int × String)) :
    (Int × Bool × Option GoError) × World :=
  (w.intSelection w.asked, { w with asked := w.asked + 1 })

/-- The call `db.insertCoffee(ctx, c)`. -/
def insertCoffee (w : World) (c : coffee) : Option GoError × World :=
  (w.insertResult c, { w with insertCalls := w.insertCalls ++ [c] })

/-- The call `db.getCoffeesByLastAdded(ctx, limit)`. -/
def getCoffeesByLastAdded (w : World) (limit : Int) : (List coffee × Option GoError) × World :=
  (w.lastAdded limit, { w with lastAddedCalls := w.lastAddedCalls ++ [limit] })

/-- The Go function `addCoffee`. -/
def addCoffee (w0 : World) : (coffee × Option GoError) × World :=
  let w1 := (w0.println "Adding new coffee (Enter # to quit):").print "Enter coffee name: "
  let r1 := validateStrInput w1 false
  if r1.1.2 then ((coffee.zero, none), r1.2.println r1.2.quitMsg) else
  let w2 := r1.2.print "Enter roaster/producer name: "
  let r2 := validateStrInput w2 false
  if r2.1.2 then ((coffee.zero, none), r2.2.println r2.2.quitMsg) else
  let w3 := r2.2.print "Enter origin/region (Format: Region, Country): "
  let r3 := validateStrInput w3 true
  if r3.1.2 then ((coffee.zero, none), r3.2.println r3.2.quitMsg) else
  let w4 := r3.2.print "Enter variety (Format: Variety 1, Variety 2, ...): "
  let r4 := validateStrInput w4 true
  if r4.1.2 then ((coffee.zero, none), r4.2.println r4.2.quitMsg) else
  let w5 := r4.2.print "Enter processing method: "
  let r5 := validateStrInput w5 true
  if r5.1.2 then ((coffee.zero, none), r5.2.println r5.2.quitMsg) else
  let w6 := r5.2.print "Is decaf (true or false): "
  let r6 := validateBoolInput w6 true
  if r6.1.2 then ((coffee.zero, none), r6.2.println r6.2.quitMsg) else
  let newCoffee : coffee := ⟨r1.1.1, r2.1.1, r3.1.1, r4.1.1, r5.1.1, r6.1.1⟩
  let ins := insertCoffee r6.2 newCoffee
  match ins.1 with
  | some err => ((coffee.zero, some (.wrap "buna: coffee: failed to insert coffee: " err)), ins.2)
  | none => ((newCoffee, none), ins.2.println "Added coffee successfully")

/-- The constant `defaultDisplayAmount` of `displayCoffeesByLastAdded`. -/
def defaultDisplayAmount : Int := 15

/-- The constant `maxDisplayAmount` of `displayCoffeesByLastAdded`. -/
def maxDisplayAmount : Int := 60

/-- The Go function `displayCoffeesByLastAdded`; rendering the table is logged
as the rows and the terminal width it is given. -/
def displayCoffeesByLastAdded (w0 : World) : Option GoError × World :=
  let w1 := (w0.println "Displaying coffees by last added (Enter # to quit):").print
    "Enter a limit for the number of coffees to display: "
  let r := validateIntInput w1 true 1 maxDisplayAmount []
  if r.1.2 then (none, r.2.println r.2.quitMsg) else
  let limit := if r.1.1 = 0 then defaultDisplayAmount else r.1.1
  let got := getCoffeesByLastAdded r.2 limit
  match got.1.2 with
  | some err => (some (.wrap "buna: coffee: failed to get coffees by last added: " err), got.2)
  | none =>
    match got.2.terminalSize.2 with
    | some err => (some (.wrap "buna: coffee: failed to get terminal width: " err), got.2)
    | none =>
      (none, { got.2 with rendered := got.2.rendered ++ [(got.1.1, got.2.terminalSize.1)] })

/-- The Go function `runRetrieveCoffeeSelection`. -/
def runRetrieveCoffeeSelection (w : World) (selection : Int) : Option GoError × World :=
  if selection = 0 then
    let r := displayCoffeesByLastAdded w
    match r.1 with
    | some err =>
      (some (.wrap "buna: coffee: failed to display coffees by last added: " err), r.2)
    | none => (none, r.2)
  else (some (.base "buna: coffee: invalid retrieve selection"), w)

/-- The Go function `retrieveCoffee`. -/
def retrieveCoffee (w0 : World) : Option GoError × World :=
  let options : List (Int × String) := [(0, "Retrieve coffees ordered by last added")]
  let w1 := w0.println "Retrieving coffee (Enter # to quit):"
  let shown := displayIntOptions w1 options
  match shown.1 with
  | some err => (some (.wrap "buna: coffee: failed to display int options: " err), shown.2)
  | none =>
    let sel := getIntSelection shown.2 options
    match sel.1.2.2 with
    | some err => (some (.wrap "buna: coffee: failed to get int selection: " err), sel.2)
    | none =>
      if sel.1.2.1 then (none, sel.2.println sel.2.quitMsg) else
      let ran := runRetrieveCoffeeSelection sel.2 sel.1.1
      match ran.1 with
      | some err =>
        (some (.wrap "buna: coffee: failed to run the retrieve selection: " err), ran.2)
      | none => (none, ran.2)

/-- Whether the `k`-th prompt of `addCoffee` (counted from 0: name, roaster,
region, variety, processing method, decaf) answers quit when `addCoffee` is
started in `w`. -/
def promptQuit (w : World) (k : Nat) : Bool :=
  if k < 5 then (w.strInput (w.asked + k)).2 else (w.boolInput (w.asked + k)).2

/-- The coffee made of the six answers, in prompt order. -/
def answeredCoffee (w : World) : coffee :=
  ⟨(w.strInput w.asked).1, (w.strInput (w.asked + 1)).1, (w.strInput (w.asked + 2)).1,
   (w.strInput (w.asked + 3)).1, (w.strInput (w.asked + 4)).1, (w.boolInput (w.asked + 5)).1⟩

/-- A session at the terminal: the user enters "Kenya AA", "Roastery", then
quits at the third prompt; any menu selection entered is 3, any limit entered
is 0; no collaborator fails. -/
def sampleWorld : World where
  quitMsg := "Quitting"
  strInput := fun n => if n = 0 then ("Kenya AA", false) else if n = 1 then ("Roastery", false)
    else ("", true)
  boolInput := fun _ => (false, false)
  intInput := fun _ => (0, false)
  intSelection := fun _ => (3, false, none)
  displayOptionsErr := none
  insertResult := fun _ => none
  lastAdded := fun _ => ([], none)
  terminalSize := (80, none)
  asked := 0
  out := []
  insertCalls := []
  lastAddedCalls := []
  rendered := []

/-- A session in which all six prompts of `addCoffee` are answered. -/
def answeringWorld : World :=
  { sampleWorld with
    strInput := fun n => if n = 0 then ("Kenya AA", false) else if n = 1 then ("Roastery", false)
      else if n = 2 then ("Nyeri, Kenya", false) else if n = 3 then ("SL28", false)
      else ("Washed", false) }

/-- A handle on which opening a transaction fails. -/
def lockedDB : SQLiteDB :=
  ⟨some (.base "database is locked"), ⟨v60Store, fun i => -i, none, none, none⟩, none⟩


/-- Five sessions on tables with primary keys in which the name "V60" is carried
by the method rows 1 and 3: sessions 2, 3, 4 (method row 1) and 5 (method row 3)
use "V60" and "Comandante", with coffee weights 15, 15, 11 and 15. -/
def twoV60Store : Store :=
  ⟨[⟨1, "A", "R1"⟩],
   [⟨1, "V60"⟩, ⟨2, "Aeropress"⟩, ⟨3, "V60"⟩],
   [⟨1, "Comandante"⟩, ⟨2, "Timemore"⟩],
   [⟨1, 1, 1, 2, 11, 250⟩, ⟨2, 1, 1, 1, 15, 250⟩, ⟨3, 1, 1, 1, 15, 250⟩,
    ⟨4, 1, 1, 1, 11, 250⟩, ⟨5, 1, 3, 1, 15, 250⟩]⟩

/-- A handle on `twoV60Store` on which no operation fails and whose plan loops
over the method rows and walks `brewings` by descending id within each (the plan
of SQLite on tables with no index but the primary keys, once `ANALYZE` has
stored statistics): session 5, of method row 3, is produced after the sessions
of method row 1. -/
def SQLiteDB.grouped : SQLiteDB :=
  SQLiteDB.planned twoV60Store (fun i => if i = 5 then 5 else -i)

/-! ## Helper lemmas: transactions -/

theorem scanLoop_ok {α : Type} (se : Option (Nat × GoError)) (rows : List α) :
    ∀ (i : Nat) (acc v : List α), scanLoop se i rows acc = (v, none) → v = acc ++ rows := by
  induction rows with
  | nil => intro i acc v h; simp [scanLoop] at h; simp [h]
  | cons r rest ih =>
    intro i acc v h
    cases se with
    | none =>
      simp only [scanLoop] at h
      have := ih _ _ _ h
      simpa using this
    | some ke =>
      obtain ⟨k, e⟩ := ke
      simp only [scanLoop] at h
      split at h
      · simp at h
      · have := ih _ _ _ h
        simpa using this

theorem scanLoop_none {α : Type} (rows : List α) :
    ∀ (i : Nat) (acc : List α), scanLoop none i rows acc = (acc ++ rows, none) := by
  induction rows with
  | nil => intro i acc; simp [scanLoop]
  | cons r rest ih => intro i acc; simp [scanLoop, ih]

theorem runLookup_planned {α : Type} (st : Store) (plan : Int → Int)
    (queryMsg failMsg : String) (q : Tx → List α) :
    runLookup (SQLiteDB.planned st plan) queryMsg failMsg q =
      (q (SQLiteDB.planned st plan).tx, none) := by
  simp [runLookup, SQLiteDB.planned, SQLiteDB.TransactContext, queryBody, scanLoop_none]

theorem runLookup_fst {α : Type} (s : SQLiteDB) (queryMsg failMsg : String)
    (q : Tx → List α) :
    (runLookup s queryMsg failMsg q).1 = [] ∨
      (runLookup s queryMsg failMsg q).1 = q s.tx := by
  obtain ⟨b, ⟨st, pl, qe, se, re⟩, c⟩ := s
  cases b with
  | some e => simp [runLookup, SQLiteDB.TransactContext]
  | none =>
    cases qe with
    | some e => simp [runLookup, SQLiteDB.TransactContext, queryBody]
    | none =>
      cases re with
      | some ke =>
        left
        simp only [runLookup, SQLiteDB.TransactContext, queryBody]
        cases hsl : scanLoop se 0 (List.take ke.1 (q ⟨st, pl, none, se, some ke⟩)) [] with
        | mk vs oe => cases oe <;> simp
      | none =>
        simp only [runLookup, SQLiteDB.TransactContext, queryBody]
        cases hsl : scanLoop se 0 (q ⟨st, pl, none, se, none⟩) [] with
        | mk vs oe =>
          cases oe with
          | some e => simp
          | none =>
            have := scanLoop_ok _ _ _ _ _ hsl
            cases c <;> simp [this]

/-! ## Helper lemmas: SQL building blocks -/

theorem sqlDistinctRows_sublist {α : Type} [DecidableEq α] (l : List (Int × α)) :
    (sqlDistinctRows l).Sublist l := by
  induction l with
  | nil => simp [sqlDistinctRows]
  | cons r rs ih =>
    simp only [sqlDistinctRows]
    exact ((List.filter_sublist _).trans ih).cons₂ r

theorem mem_values_sqlDistinctRows {α : Type} [DecidableEq α] (x : α) (l : List (Int × α)) :
    x ∈ (sqlDistinctRows l).map Prod.snd ↔ x ∈ l.map Prod.snd := by
  induction l with
  | nil => simp [sqlDistinctRows]
  | cons r rs ih =>
    simp only [sqlDistinctRows, List.map_cons, List.mem_cons]
    by_cases h : x = r.2
    · simp [h]
    · have hf : x ∈ List.map Prod.snd
          (List.filter (fun q => decide (q.2 ≠ r.2)) (sqlDistinctRows rs)) ↔
          x ∈ List.map Prod.snd (sqlDistinctRows rs) := by
        simp only [List.mem_map, List.mem_filter]
        constructor
        · rintro ⟨q, ⟨hq, _⟩, rfl⟩
          exact ⟨q, hq, rfl⟩
        · rintro ⟨q, hq, rfl⟩
          exact ⟨q, ⟨hq, by simpa using h⟩, rfl⟩
      rw [hf, ih]

theorem nodup_values_sqlDistinctRows {α : Type} [DecidableEq α] (l : List (Int × α)) :
    ((sqlDistinctRows l).map Prod.snd).Nodup := by
  induction l with
  | nil => simp [sqlDistinctRows]
  | cons r rs ih =>
    simp only [sqlDistinctRows, List.map_cons, List.nodup_cons]
    refine ⟨?_, ih.sublist ((List.filter_sublist _).map _)⟩
    simp only [List.mem_map, List.mem_filter, not_exists, not_and]
    rintro q ⟨_, hq⟩ he
    simp [he] at hq

theorem sqlLimit_sublist {α : Type} (limit : Int) (l : List α) :
    (sqlLimit limit l).Sublist l := by
  unfold sqlLimit
  split
  · exact List.Sublist.refl l
  · exact List.take_sublist _ _

theorem sqlLimit_of_nonneg {α : Type} (limit : Int) (h : 0 ≤ limit) (l : List α) :
    sqlLimit limit l = l.take limit.toNat := by
  unfold sqlLimit
  rw [if_neg (not_lt.mpr h)]

theorem length_sqlLimit_le {α : Type} (limit : Int) (h : 0 ≤ limit) (l : List α) :
    ((sqlLimit limit l).length : Int) ≤ limit := by
  rw [sqlLimit_of_nonneg limit h, List.length_take]
  have : ((min limit.toNat l.length : Nat) : Int) ≤ (limit.toNat : Int) :=
    Int.ofNat_le.mpr (Nat.min_le_left _ _)
  rw [Int.toNat_of_nonneg h] at this
  exact this

theorem perm_orderByDesc {β : Type} (key : β → Int) (l : List β) :
    (orderByDesc key l).Perm l :=
  List.perm_insertionSort _ l

theorem sorted_orderByDesc {β : Type} (key : β → Int) (l : List β) :
    (orderByDesc key l).Pairwise (fun a b => key b ≤ key a) := by
  haveI : IsTotal β (fun a b => key b ≤ key a) := ⟨fun a b => le_total _ _⟩
  haveI : IsTrans β (fun a b => key b ≤ key a) := ⟨fun a b c h1 h2 => le_trans h2 h1⟩
  exact List.sorted_insertionSort (fun a b => key b ≤ key a) l

theorem perm_planOrder {α : Type} (plan : Int → Int) (l : List (Int × α)) :
    (planOrder plan l).Perm l :=
  List.perm_insertionSort _ l

theorem mem_selectDistinctRecent {α : Type} [DecidableEq α] (plan : Int → Int)
    (rows : List (Int × α)) (limit : Int) (x : α)
    (h : x ∈ selectDistinctRecent plan rows limit) : ∃ i, (i, x) ∈ rows := by
  have h1 := (sqlLimit_sublist limit _).subset h
  rw [List.mem_map] at h1
  obtain ⟨r, hr, rfl⟩ := h1
  have h2 := (perm_orderByDesc _ _).mem_iff.mp hr
  have h3 := (sqlDistinctRows_sublist _).subset h2
  exact ⟨r.1, (perm_planOrder _ _).mem_iff.mp h3⟩

theorem nodup_selectDistinctRecent {α : Type} [DecidableEq α] (plan : Int → Int)
    (rows : List (Int × α)) (limit : Int) : (selectDistinctRecent plan rows limit).Nodup := by
  have h1 := nodup_values_sqlDistinctRows (planOrder plan rows)
  have h2 := ((perm_orderByDesc Prod.fst (sqlDistinctRows (planOrder plan rows))).map
    Prod.snd).nodup_iff.mpr h1
  exact h2.sublist (sqlLimit_sublist limit _)

theorem planOrder_descending {α : Type} (rows : List (Int × α)) :
    (planOrder (fun i => -i) rows).Pairwise (fun a b => b.1 ≤ a.1) := by
  haveI : IsTotal (Int × α) (fun a b => -a.1 ≤ -b.1) := ⟨fun a b => le_total _ _⟩
  haveI : IsTrans (Int × α) (fun a b => -a.1 ≤ -b.1) := ⟨fun a b c h1 h2 => le_trans h1 h2⟩
  have h := List.sorted_insertionSort (fun a b : Int × α => -a.1 ≤ -b.1) rows
  exact List.Pairwise.imp (fun {a b} hab => neg_le_neg_iff.mp hab) h

theorem orderByDesc_of_sorted {β : Type} (key : β → Int) (l : List β)
    (h : l.Pairwise (fun a b => key b ≤ key a)) : orderByDesc key l = l :=
  List.Sorted.insertionSort_eq h

/-- In rows sorted by id descending in which an id determines the value, the
distinct values come out ordered by their largest id. -/
theorem pairwise_sqlDistinctRows {α : Type} [DecidableEq α] (S : List (Int × α))
    (hs : S.Pairwise (fun a b => b.1 ≤ a.1))
    (hf : ∀ r ∈ S, ∀ q ∈ S, r.1 = q.1 → r.2 = q.2) :
    ((sqlDistinctRows S).map Prod.snd).Pairwise
      (fun x y => ∃ r ∈ S, r.2 = x ∧ ∀ q ∈ S, q.2 = y → q.1 < r.1) := by
  induction S with
  | nil => simp [sqlDistinctRows]
  | cons r S ih =>
    rw [List.pairwise_cons] at hs
    have hmemf : ∀ y, y ∈ List.map Prod.snd
        (List.filter (fun q => decide (q.2 ≠ r.2)) (sqlDistinctRows S)) → y ≠ r.2 := by
      intro y hy
      simp only [List.mem_map, List.mem_filter] at hy
      obtain ⟨q, ⟨_, hq⟩, rfl⟩ := hy
      simpa using hq
    simp only [sqlDistinctRows, List.map_cons, List.pairwise_cons]
    refine ⟨?_, ?_⟩
    · intro y hy
      have hne : y ≠ r.2 := hmemf y hy
      refine ⟨r, List.mem_cons_self _ _, rfl, ?_⟩
      intro q hq hqy
      rcases List.mem_cons.mp hq with rfl | hqS
      · exact absurd hqy.symm hne
      · have hle := hs.1 q hqS
        have hne2 : q.1 ≠ r.1 := by
          intro he
          have := hf q hq r (List.mem_cons_self _ _) he
          exact hne (hqy.symm.trans this)
        exact lt_of_le_of_ne hle hne2
    · have ih2 := ih hs.2 (fun a ha b hb => hf a (List.mem_cons_of_mem _ ha) b
        (List.mem_cons_of_mem _ hb))
      have ih3 := ih2.sublist ((List.filter_sublist (p := fun q => decide (q.2 ≠ r.2))
        (sqlDistinctRows S)).map Prod.snd)
      refine ih3.imp_of_mem ?_
      intro x y _ hy hxy
      have hyne : y ≠ r.2 := hmemf y hy
      obtain ⟨a, ha, hax, hall⟩ := hxy
      refine ⟨a, List.mem_cons_of_mem _ ha, hax, ?_⟩
      intro q hq hqy
      rcases List.mem_cons.mp hq with rfl | hqS
      · exact absurd hqy.symm hyne
      · exact hall q hqS hqy

/-! ## Helper lemmas: joins -/

theorem mem_coffeeNameRows (s : Store) (i : Int) (x : String) :
    (i, x) ∈ coffeeNameRows s ↔ brewedCoffee s i x := by
  simp only [coffeeNameRows, brewedCoffee, List.mem_flatMap, List.mem_map, List.mem_filter,
    decide_eq_true_eq, Prod.mk.injEq]
  constructor
  · rintro ⟨b, hb, c, ⟨hc, hbc⟩, hi, hx⟩
    exact ⟨b, hb, c, hc, hi, hbc, hx⟩
  · rintro ⟨b, hb, c, hc, hi, hbc, hx⟩
    exact ⟨b, hb, c, ⟨hc, hbc⟩, hi, hx⟩

theorem mem_methodNameRows (s : Store) (i : Int) (x : String) :
    (i, x) ∈ methodNameRows s ↔ usedMethod s i x := by
  simp only [methodNameRows, usedMethod, List.mem_flatMap, List.mem_map, List.mem_filter,
    decide_eq_true_eq, Prod.mk.injEq]
  constructor
  · rintro ⟨b, hb, c, ⟨hc, hbc⟩, hi, hx⟩
    exact ⟨b, hb, c, hc, hi, hbc, hx⟩
  · rintro ⟨b, hb, c, hc, hi, hbc, hx⟩
    exact ⟨b, hb, c, ⟨hc, hbc⟩, hi, hx⟩

theorem mem_grinderNameRows (s : Store) (i : Int) (x : String) :
    (i, x) ∈ grinderNameRows s ↔ usedGrinder s i x := by
  simp only [grinderNameRows, usedGrinder, List.mem_flatMap, List.mem_map, List.mem_filter,
    decide_eq_true_eq, Prod.mk.injEq]
  constructor
  · rintro ⟨b, hb, c, ⟨hc, hbc⟩, hi, hx⟩
    exact ⟨b, hb, c, hc, hi, hbc, hx⟩
  · rintro ⟨b, hb, c, hc, hi, hbc, hx⟩
    exact ⟨b, hb, c, ⟨hc, hbc⟩, hi, hx⟩

theorem mem_methodGrinderJoin (s : Store) (m g : String) (b : BrewingRow) (mr gr : NamedRow) :
    (b, mr, gr) ∈ methodGrinderJoin s m g ↔
      b ∈ s.brewings ∧ mr ∈ s.brewing_methods ∧ gr ∈ s.grinders ∧ b.method_id = mr.id ∧
        b.grinder_id = gr.id ∧ mr.name = m ∧ gr.name = g := by
  simp only [methodGrinderJoin, List.mem_flatMap, List.mem_map, List.mem_filter,
    decide_eq_true_eq, Prod.mk.injEq, Bool.decide_and, Bool.and_eq_true]
  constructor
  · rintro ⟨⟨b1, hb, m1, ⟨hm, hbm⟩, g1, ⟨hg, hbg⟩, rfl, rfl, rfl⟩, hmn, hgn⟩
    exact ⟨hb, hm, hg, hbm, hbg, hmn, hgn⟩
  · rintro ⟨hb, hm, hg, hbm, hbg, hmn, hgn⟩
    exact ⟨⟨b, hb, mr, ⟨hm, hbm⟩, gr, ⟨hg, hbg⟩, rfl, rfl, rfl⟩, hmn, hgn⟩

theorem mem_coffeeWeightRows (s : Store) (m g : String) (i w : Int) :
    (i, w) ∈ coffeeWeightRows s m g ↔ usedCoffeeWeight s m g i w := by
  simp only [coffeeWeightRows, usedCoffeeWeight, List.mem_map, Prod.mk.injEq]
  constructor
  · rintro ⟨⟨b, mr, gr⟩, hmem, hi, hw⟩
    obtain ⟨hb, hm, hg, h1, h2, h3, h4⟩ := (mem_methodGrinderJoin s m g b mr gr).mp hmem
    exact ⟨b, hb, mr, hm, gr, hg, hi, h1, h2, h3, h4, hw⟩
  · rintro ⟨b, hb, mr, hm, gr, hg, hi, h1, h2, h3, h4, hw⟩
    exact ⟨(b, mr, gr), (mem_methodGrinderJoin s m g b mr gr).mpr ⟨hb, hm, hg, h1, h2, h3, h4⟩,
      hi, hw⟩

theorem mem_waterWeightRows (s : Store) (m g : String) (i w : Int) :
    (i, w) ∈ waterWeightRows s m g ↔ usedWaterWeight s m g i w := by
  simp only [waterWeightRows, usedWaterWeight, List.mem_map, Prod.mk.injEq]
  constructor
  · rintro ⟨⟨b, mr, gr⟩, hmem, hi, hw⟩
    obtain ⟨hb, hm, hg, h1, h2, h3, h4⟩ := (mem_methodGrinderJoin s m g b mr gr).mp hmem
    exact ⟨b, hb, mr, hm, gr, hg, hi, h1, h2, h3, h4, hw⟩
  · rintro ⟨b, hb, mr, hm, gr, hg, hi, h1, h2, h3, h4, hw⟩
    exact ⟨(b, mr, gr), (mem_methodGrinderJoin s m g b mr gr).mpr ⟨hb, hm, hg, h1, h2, h3, h4⟩,
      hi, hw⟩

theorem brewedCoffee_fun (s : Store) (hk : s.Keyed) (i : Int) (x y : String)
    (hx : brewedCoffee s i x) (hy : brewedCoffee s i y) : x = y := by
  obtain ⟨b, hb, c, hc, hi, hbc, rfl⟩ := hx
  obtain ⟨b2, hb2, c2, hc2, hi2, hbc2, rfl⟩ := hy
  have hbb : b = b2 := List.inj_on_of_nodup_map hk.1 hb hb2 (hi.trans hi2.symm)
  subst hbb
  have hcc : c = c2 := List.inj_on_of_nodup_map hk.2.1 hc hc2 (hbc.symm.trans hbc2)
  rw [hcc]

theorem usedMethod_fun (s : Store) (hk : s.Keyed) (i : Int) (x y : String)
    (hx : usedMethod s i x) (hy : usedMethod s i y) : x = y := by
  obtain ⟨b, hb, c, hc, hi, hbc, rfl⟩ := hx
  obtain ⟨b2, hb2, c2, hc2, hi2, hbc2, rfl⟩ := hy
  have hbb : b = b2 := List.inj_on_of_nodup_map hk.1 hb hb2 (hi.trans hi2.symm)
  subst hbb
  have hcc : c = c2 := List.inj_on_of_nodup_map hk.2.2.1 hc hc2 (hbc.symm.trans hbc2)
  rw [hcc]

theorem usedGrinder_fun (s : Store) (hk : s.Keyed) (i : Int) (x y : String)
    (hx : usedGrinder s i x) (hy : usedGrinder s i y) : x = y := by
  obtain ⟨b, hb, c, hc, hi, hbc, rfl⟩ := hx
  obtain ⟨b2, hb2, c2, hc2, hi2, hbc2, rfl⟩ := hy
  have hbb : b = b2 := List.inj_on_of_nodup_map hk.1 hb hb2 (hi.trans hi2.symm)
  subst hbb
  have hcc : c = c2 := List.inj_on_of_nodup_map hk.2.2.2 hc hc2 (hbc.symm.trans hbc2)
  rw [hcc]

theorem usedCoffeeWeight_fun (s : Store) (hk : s.Keyed) (m g : String) (i x y : Int)
    (hx : usedCoffeeWeight s m g i x) (hy : usedCoffeeWeight s m g i y) : x = y := by
  obtain ⟨b, hb, _, _, _, _, hi, _, _, _, _, rfl⟩ := hx
  obtain ⟨b2, hb2, _, _, _, _, hi2, _, _, _, _, rfl⟩ := hy
  have hbb : b = b2 := List.inj_on_of_nodup_map hk.1 hb hb2 (hi.trans hi2.symm)
  rw [hbb]

theorem usedWaterWeight_fun (s : Store) (hk : s.Keyed) (m g : String) (i x y : Int)
    (hx : usedWaterWeight s m g i x) (hy : usedWaterWeight s m g i y) : x = y := by
  obtain ⟨b, hb, _, _, _, _, hi, _, _, _, _, rfl⟩ := hx
  obtain ⟨b2, hb2, _, _, _, _, hi2, _, _, _, _, rfl⟩ := hy
  have hbb : b = b2 := List.inj_on_of_nodup_map hk.1 hb hb2 (hi.trans hi2.symm)
  rw [hbb]

/-! ## Helper lemmas: recency ranking -/

theorem moreRecent_asymm {α : Type} (occ : Int → α → Prop) (x y : α)
    (h1 : MoreRecent occ x y) (h2 : MoreRecent occ y x) : False := by
  obtain ⟨i, hi, hall⟩ := h1
  obtain ⟨j, hj, hall2⟩ := h2
  have a := hall j hj
  have b := hall2 i hi
  omega

/-- Under the plan that walks `brewings` by descending id, the sorter of
`ORDER BY` leaves the rows kept by `DISTINCT` as they are. -/
theorem orderByDesc_distinct_descending {α : Type} [DecidableEq α] (rows : List (Int × α)) :
    orderByDesc Prod.fst (sqlDistinctRows (planOrder (fun i => -i) rows)) =
      sqlDistinctRows (planOrder (fun i => -i) rows) :=
  orderByDesc_of_sorted _ _ ((planOrder_descending rows).sublist (sqlDistinctRows_sublist _))

/-- Under the plan that walks `brewings` by descending id, the distinct values
of the rows, in the order the query produces them before `LIMIT`, are the
recency ranking of the values. -/
theorem ranking_of_rows {α : Type} [DecidableEq α] (rows : List (Int × α))
    (occ : Int → α → Prop) (hocc : ∀ i x, (i, x) ∈ rows ↔ occ i x)
    (hfun : ∀ i x y, occ i x → occ i y → x = y) :
    IsRecencyRanking occ
      ((orderByDesc Prod.fst (sqlDistinctRows (planOrder (fun i => -i) rows))).map
        Prod.snd) := by
  rw [orderByDesc_distinct_descending]
  have hperm := perm_planOrder (fun i => -i) rows
  have hmem : ∀ r : Int × α, r ∈ planOrder (fun i => -i) rows ↔ occ r.1 r.2 := fun r =>
    hperm.mem_iff.trans (hocc r.1 r.2)
  have hpw := pairwise_sqlDistinctRows (planOrder (fun i => -i) rows) (planOrder_descending _)
    (fun r hr q hq he => hfun r.1 r.2 q.2 ((hmem r).mp hr) (he ▸ (hmem q).mp hq))
  have hpw2 : ((sqlDistinctRows (planOrder (fun i => -i) rows)).map Prod.snd).Pairwise
      (MoreRecent occ) := by
    refine hpw.imp ?_
    rintro x y ⟨r, hr, rfl, hall⟩
    exact ⟨r.1, (hmem r).mp hr, fun j hj => hall (j, y) ((hmem (j, y)).mpr hj) rfl⟩
  refine ⟨nodup_values_sqlDistinctRows _, ?_, ?_⟩
  · intro x
    rw [mem_values_sqlDistinctRows, List.mem_map]
    constructor
    · rintro ⟨r, hr, rfl⟩
      exact ⟨r.1, (hmem r).mp hr⟩
    · rintro ⟨i, hi⟩
      exact ⟨(i, x), (hmem (i, x)).mpr hi, rfl⟩
  · intro i j hi hj
    have hget := List.pairwise_iff_getElem.mp hpw2
    constructor
    · intro hij
      exact hget i j hi hj hij
    · intro hmr
      rcases Nat.lt_trichotomy i j with h | h | h
      · exact h
      · subst h
        exact (moreRecent_asymm occ _ _ hmr hmr).elim
      · exact (moreRecent_asymm occ _ _ hmr (hget j i hj hi h)).elim

theorem selectDistinctRecent_ranking {α : Type} [DecidableEq α] (rows : List (Int × α))
    (occ : Int → α → Prop) (hocc : ∀ i x, (i, x) ∈ rows ↔ occ i x)
    (hfun : ∀ i x y, occ i x → occ i y → x = y) (limit : Int) (hl : 0 ≤ limit) :
    ∃ ranking, IsRecencyRanking occ ranking ∧
      selectDistinctRecent (fun i => -i) rows limit = ranking.take limit.toNat :=
  ⟨_, ranking_of_rows rows occ hocc hfun, sqlLimit_of_nonneg limit hl _⟩

/-! ## Helper lemmas: the lookups as instances of the shared shape -/

theorem getMostRecentBrewedCoffeeNames_eq (s : SQLiteDB) (limit : Int) :
    s.getMostRecentBrewedCoffeeNames limit =
      runLookup s "buna: input_suggestions: failed to retrieve coffee name rows: "
        "buna: input_suggestions: getMostRecentBrewedCoffeeNames transaction failed: "
        (fun tx => selectDistinctRecent tx.plan (coffeeNameRows tx.store) limit) := by
  unfold SQLiteDB.getMostRecentBrewedCoffeeNames runLookup
  split <;> simp_all

theorem getMostRecentlyUsedBrewingMethodNames_eq (s : SQLiteDB) (limit : Int) :
    s.getMostRecentlyUsedBrewingMethodNames limit =
      runLookup s "buna: input_suggestions: failed to retrieve brewing method name rows: "
        "buna: input_suggestions: getMostRecentlyUsedBrewingMethodNames transaction failed: "
        (fun tx => selectDistinctRecent tx.plan (methodNameRows tx.store) limit) := by
  unfold SQLiteDB.getMostRecentlyUsedBrewingMethodNames runLookup
  split <;> simp_all

theorem getMostRecentlyUsedCoffeeGrinderNames_eq (s : SQLiteDB) (limit : Int) :
    s.getMostRecentlyUsedCoffeeGrinderNames limit =
      runLookup s "buna: input_suggestions: failed to retrieve coffee grinder name rows: "
        "buna: input_suggestions: getMostRecentlyUsedCoffeeGrinderNames transaction failed: "
        (fun tx => selectDistinctRecent tx.plan (grinderNameRows tx.store) limit) := by
  unfold SQLiteDB.getMostRecentlyUsedCoffeeGrinderNames runLookup
  split <;> simp_all

theorem getMostRecentlyUsedCoffeeWeights_eq (s : SQLiteDB) (m g : String) (limit : Int) :
    s.getMostRecentlyUsedCoffeeWeights m g limit =
      runLookup s "buna: input_suggestions: failed to retrieve coffee weight rows: "
        "buna: input_suggestions: getMostRecentlyUsedCoffeeWeights transaction failed: "
        (fun tx => selectDistinctRecent tx.plan (coffeeWeightRows tx.store m g) limit) := by
  unfold SQLiteDB.getMostRecentlyUsedCoffeeWeights runLookup
  split <;> simp_all

theorem getMostRecentlyUsedWaterWeights_eq (s : SQLiteDB) (m g : String) (limit : Int) :
    s.getMostRecentlyUsedWaterWeights m g limit =
      runLookup s "buna: input_suggestions: failed to retrieve coffee weight rows: "
        "buna: input_suggestions: getMostRecentlyUsedCoffeeWeights transaction failed: "
        (fun tx => selectDistinctRecent tx.plan (waterWeightRows tx.store m g) limit) := by
  unfold SQLiteDB.getMostRecentlyUsedWaterWeights runLookup
  split <;> simp_all

theorem getRoastersByCoffeeName_eq (s : SQLiteDB) (name : String) (limit : Int) :
    s.getRoastersByCoffeeName name limit =
      runLookup s "buna: input_suggestions: failed to retrieve coffee roaster rows: "
        "buna: input_suggestions: getRoastersByCoffeeName transaction failed: "
        (fun tx => selectRoasters tx.store name limit) := by
  unfold SQLiteDB.getRoastersByCoffeeName runLookup
  split <;> simp_all

/-- The list a lookup of the shared shape returns has every property of the
query result that the empty list has too. -/
theorem runLookup_fst_prop {α : Type} (P : List α → Prop) (hnil : P [])
    (s : SQLiteDB) (queryMsg failMsg : String) (q : Tx → List α) (hq : P (q s.tx)) :
    P (runLookup s queryMsg failMsg q).1 := by
  rcases runLookup_fst s queryMsg failMsg q with h | h <;> rw [h] <;> assumption

/-! ## Properties of the lookups -/

/-- C1: every weight returned by `getMostRecentlyUsedCoffeeWeights(m, g, limit)`
is the `coffee_grams` of a session whose method name is exactly `m` and whose
grinder name is exactly `g`, and every weight returned by
`getMostRecentlyUsedWaterWeights(m, g, limit)` is the `water_grams` of such a
session; so a weight found only in sessions that miss one of the two names is
not returned. It holds for every limit and every handle. -/
theorem weights_from_matching_sessions (s : SQLiteDB) (m g : String) (limit w : Int) :
    (w ∈ (s.getMostRecentlyUsedCoffeeWeights m g limit).1 →
        ∃ i, usedCoffeeWeight s.tx.store m g i w) ∧
      (w ∈ (s.getMostRecentlyUsedWaterWeights m g limit).1 →
        ∃ i, usedWaterWeight s.tx.store m g i w) := by
  constructor
  · rw [getMostRecentlyUsedCoffeeWeights_eq]
    apply runLookup_fst_prop (fun l => w ∈ l → ∃ i, usedCoffeeWeight s.tx.store m g i w)
    · simp
    · intro h
      obtain ⟨i, hi⟩ := mem_selectDistinctRecent _ _ _ _ h
      exact ⟨i, (mem_coffeeWeightRows _ _ _ _ _).mp hi⟩
  · rw [getMostRecentlyUsedWaterWeights_eq]
    apply runLookup_fst_prop (fun l => w ∈ l → ∃ i, usedWaterWeight s.tx.store m g i w)
    · simp
    · intro h
      obtain ⟨i, hi⟩ := mem_selectDistinctRecent _ _ _ _ h
      exact ⟨i, (mem_waterWeightRows _ _ _ _ _).mp hi⟩

/-- Witness of C1 on the store of the V60 sessions: 18 is returned for
"V60"/"Comandante", and it is the coffee weight of a session with these names. -/
theorem weights_from_matching_sessions_witness :
    (18 : Int) ∈ ((SQLiteDB.healthy v60Store).getMostRecentlyUsedCoffeeWeights
        "V60" "Comandante" 10).1 ∧
      ∃ i, usedCoffeeWeight v60Store "V60" "Comandante" i 18 :=
  ⟨by decide,
    (weights_from_matching_sessions (SQLiteDB.healthy v60Store) "V60" "Comandante" 10 18).1
      (by decide)⟩

/-- When the plan walks `brewings` by descending id, on a store with primary
keys and for `limit >= 1`, each deduplicating lookup returns the first `limit`
values of the recency ranking of its values: the ranking holds each value that
occurs once, and a value precedes another exactly when the largest session id
at which it occurs is the greater one. For the two weight lookups the sessions
counted are those with the given method and grinder names. -/
theorem descending_plan_most_recent_first (st : Store) (hk : st.Keyed) (m g : String) (limit : Int)
    (hl : 1 ≤ limit) :
    (∃ ranking, IsRecencyRanking (brewedCoffee st) ranking ∧
        (SQLiteDB.healthy st).getMostRecentBrewedCoffeeNames limit =
          (ranking.take limit.toNat, none)) ∧
      (∃ ranking, IsRecencyRanking (usedMethod st) ranking ∧
        (SQLiteDB.healthy st).getMostRecentlyUsedBrewingMethodNames limit =
          (ranking.take limit.toNat, none)) ∧
      (∃ ranking, IsRecencyRanking (usedGrinder st) ranking ∧
        (SQLiteDB.healthy st).getMostRecentlyUsedCoffeeGrinderNames limit =
          (ranking.take limit.toNat, none)) ∧
      (∃ ranking, IsRecencyRanking (usedCoffeeWeight st m g) ranking ∧
        (SQLiteDB.healthy st).getMostRecentlyUsedCoffeeWeights m g limit =
          (ranking.take limit.toNat, none)) ∧
      (∃ ranking, IsRecencyRanking (usedWaterWeight st m g) ranking ∧
        (SQLiteDB.healthy st).getMostRecentlyUsedWaterWeights m g limit =
          (ranking.take limit.toNat, none)) := by
  have h0 : 0 ≤ limit := by omega
  refine ⟨?_, ?_, ?_, ?_, ?_⟩
  · obtain ⟨r, hr, he⟩ := selectDistinctRecent_ranking (coffeeNameRows st) (brewedCoffee st)
      (mem_coffeeNameRows st) (brewedCoffee_fun st hk) limit h0
    refine ⟨r, hr, ?_⟩
    rw [getMostRecentBrewedCoffeeNames_eq, SQLiteDB.healthy, runLookup_planned]
    exact congrArg (fun l => (l, none)) he
  · obtain ⟨r, hr, he⟩ := selectDistinctRecent_ranking (methodNameRows st) (usedMethod st)
      (mem_methodNameRows st) (usedMethod_fun st hk) limit h0
    refine ⟨r, hr, ?_⟩
    rw [getMostRecentlyUsedBrewingMethodNames_eq, SQLiteDB.healthy, runLookup_planned]
    exact congrArg (fun l => (l, none)) he
  · obtain ⟨r, hr, he⟩ := selectDistinctRecent_ranking (grinderNameRows st) (usedGrinder st)
      (mem_grinderNameRows st) (usedGrinder_fun st hk) limit h0
    refine ⟨r, hr, ?_⟩
    rw [getMostRecentlyUsedCoffeeGrinderNames_eq, SQLiteDB.healthy, runLookup_planned]
    exact congrArg (fun l => (l, none)) he
  · obtain ⟨r, hr, he⟩ := selectDistinctRecent_ranking (coffeeWeightRows st m g)
      (usedCoffeeWeight st m g) (mem_coffeeWeightRows st m g) (usedCoffeeWeight_fun st hk m g)
      limit h0
    refine ⟨r, hr, ?_⟩
    rw [getMostRecentlyUsedCoffeeWeights_eq, SQLiteDB.healthy, runLookup_planned]
    exact congrArg (fun l => (l, none)) he
  · obtain ⟨r, hr, he⟩ := selectDistinctRecent_ranking (waterWeightRows st m g)
      (usedWaterWeight st m g) (mem_waterWeightRows st m g) (usedWaterWeight_fun st hk m g)
      limit h0
    refine ⟨r, hr, ?_⟩
    rw [getMostRecentlyUsedWaterWeights_eq, SQLiteDB.healthy, runLookup_planned]
    exact congrArg (fun l => (l, none)) he

/-- C2, on the code: the order of the result follows the query plan.
The store of the V60 sessions has primary keys and three sessions with "V60"
and "Comandante" and coffee weights 15, 18, 15, so 15 was used more recently
than 18. When the plan walks `brewings` by ascending id,
`getMostRecentlyUsedCoffeeWeights("V60", "Comandante", 10)` returns `[18, 15]`
and with limit 1 it returns `[18]`: the row kept for 15 is the first one
produced, session 1, and the sorter puts it after session 2. When the plan walks
`brewings` by descending id the result is `[15, 18]`. On the store with two
method rows named "V60", 15 was used more recently than 11 and the plan that
loops over the method rows returns `[11, 15]`. -/
theorem weights_order_follows_plan :
    v60Store.Keyed ∧
      MoreRecent (usedCoffeeWeight v60Store "V60" "Comandante") 15 18 ∧
      (SQLiteDB.indexed v60Store).getMostRecentlyUsedCoffeeWeights "V60" "Comandante" 10 =
        ([18, 15], none) ∧
      (SQLiteDB.indexed v60Store).getMostRecentlyUsedCoffeeWeights "V60" "Comandante" 1 =
        ([18], none) ∧
      (SQLiteDB.healthy v60Store).getMostRecentlyUsedCoffeeWeights "V60" "Comandante" 10 =
        ([15, 18], none) ∧
      twoV60Store.Keyed ∧
      MoreRecent (usedCoffeeWeight twoV60Store "V60" "Comandante") 15 11 ∧
      SQLiteDB.grouped.getMostRecentlyUsedCoffeeWeights "V60" "Comandante" 10 =
        ([11, 15], none) := by
  refine ⟨by decide, ?_, by decide, by decide, by decide, by decide, ?_, by decide⟩
  · refine ⟨3, ⟨⟨3, 3, 1, 1, 15, 240⟩, by decide, ⟨1, "V60"⟩, by decide, ⟨1, "Comandante"⟩,
      by decide, rfl, rfl, rfl, rfl, rfl, rfl⟩, ?_⟩
    rintro j ⟨b, hb, mr, _, gr, _, hi, _, _, _, _, hw⟩
    simp only [v60Store, List.mem_cons, List.mem_singleton, List.not_mem_nil, or_false] at hb
    rcases hb with rfl | rfl | rfl | rfl
    · simp at hw
    · simp at hi
      omega
    · simp at hw
    · simp at hw
  · refine ⟨5, ⟨⟨5, 1, 3, 1, 15, 250⟩, by decide, ⟨3, "V60"⟩, by decide, ⟨1, "Comandante"⟩,
      by decide, rfl, rfl, rfl, rfl, rfl, rfl⟩, ?_⟩
    rintro j ⟨b, hb, mr, _, gr, _, hi, _, _, _, _, hw⟩
    simp only [twoV60Store, List.mem_cons, List.mem_singleton, List.not_mem_nil, or_false]
      at hb
    rcases hb with rfl | rfl | rfl | rfl | rfl
    · simp at hi
      omega
    · simp at hw
    · simp at hw
    · simp at hi
      omega
    · simp at hw

/-- C3: for every handle and every `limit >= 0`, the list each of the six
lookups returns has length at most `limit`. -/
theorem lookups_length_le_limit (s : SQLiteDB) (name m g : String) (limit : Int)
    (hl : 0 ≤ limit) :
    ((s.getMostRecentBrewedCoffeeNames limit).1.length : Int) ≤ limit ∧
      ((s.getMostRecentlyUsedBrewingMethodNames limit).1.length : Int) ≤ limit ∧
      ((s.getMostRecentlyUsedCoffeeGrinderNames limit).1.length : Int) ≤ limit ∧
      ((s.getMostRecentlyUsedCoffeeWeights m g limit).1.length : Int) ≤ limit ∧
      ((s.getMostRecentlyUsedWaterWeights m g limit).1.length : Int) ≤ limit ∧
      ((s.getRoastersByCoffeeName name limit).1.length : Int) ≤ limit := by
  have hnil : ((([] : List String).length : Nat) : Int) ≤ limit := by simpa using hl
  have hnil2 : ((([] : List Int).length : Nat) : Int) ≤ limit := by simpa using hl
  refine ⟨?_, ?_, ?_, ?_, ?_, ?_⟩
  · rw [getMostRecentBrewedCoffeeNames_eq]
    exact runLookup_fst_prop (fun l => (l.length : Int) ≤ limit) hnil _ _ _ _
      (length_sqlLimit_le limit hl _)
  · rw [getMostRecentlyUsedBrewingMethodNames_eq]
    exact runLookup_fst_prop (fun l => (l.length : Int) ≤ limit) hnil _ _ _ _
      (length_sqlLimit_le limit hl _)
  · rw [getMostRecentlyUsedCoffeeGrinderNames_eq]
    exact runLookup_fst_prop (fun l => (l.length : Int) ≤ limit) hnil _ _ _ _
      (length_sqlLimit_le limit hl _)
  · rw [getMostRecentlyUsedCoffeeWeights_eq]
    exact runLookup_fst_prop (fun l => (l.length : Int) ≤ limit) hnil2 _ _ _ _
      (length_sqlLimit_le limit hl _)
  · rw [getMostRecentlyUsedWaterWeights_eq]
    exact runLookup_fst_prop (fun l => (l.length : Int) ≤ limit) hnil2 _ _ _ _
      (length_sqlLimit_le limit hl _)
  · rw [getRoastersByCoffeeName_eq]
    exact runLookup_fst_prop (fun l => (l.length : Int) ≤ limit) hnil _ _ _ _
      (length_sqlLimit_le limit hl _)

/-- Witness of C3 on the store of the V60 sessions with limit 2. -/
theorem lookups_length_le_limit_witness :
    (0 : Int) ≤ 2 ∧
      (((SQLiteDB.healthy v60Store).getMostRecentBrewedCoffeeNames 2).1.length : Int) ≤ 2 :=
  ⟨by decide,
    (lookups_length_le_limit (SQLiteDB.healthy v60Store) "A" "V60" "Comandante" 2
      (by decide)).1⟩

/-- C4: for every handle and every limit, the three name lookups return no name
twice (the rows are made distinct by name, whatever the ids of the reference
rows that carry the name) and the two weight lookups return no weight twice. -/
theorem lookups_nodup (s : SQLiteDB) (m g : String) (limit : Int) :
    (s.getMostRecentBrewedCoffeeNames limit).1.Nodup ∧
      (s.getMostRecentlyUsedBrewingMethodNames limit).1.Nodup ∧
      (s.getMostRecentlyUsedCoffeeGrinderNames limit).1.Nodup ∧
      (s.getMostRecentlyUsedCoffeeWeights m g limit).1.Nodup ∧
      (s.getMostRecentlyUsedWaterWeights m g limit).1.Nodup := by
  refine ⟨?_, ?_, ?_, ?_, ?_⟩
  · rw [getMostRecentBrewedCoffeeNames_eq]
    exact runLookup_fst_prop List.Nodup List.nodup_nil _ _ _ _ (nodup_selectDistinctRecent _ _ _)
  · rw [getMostRecentlyUsedBrewingMethodNames_eq]
    exact runLookup_fst_prop List.Nodup List.nodup_nil _ _ _ _ (nodup_selectDistinctRecent _ _ _)
  · rw [getMostRecentlyUsedCoffeeGrinderNames_eq]
    exact runLookup_fst_prop List.Nodup List.nodup_nil _ _ _ _ (nodup_selectDistinctRecent _ _ _)
  · rw [getMostRecentlyUsedCoffeeWeights_eq]
    exact runLookup_fst_prop List.Nodup List.nodup_nil _ _ _ _ (nodup_selectDistinctRecent _ _ _)
  · rw [getMostRecentlyUsedWaterWeights_eq]
    exact runLookup_fst_prop List.Nodup List.nodup_nil _ _ _ _ (nodup_selectDistinctRecent _ _ _)

/-- C5: for `limit >= 1`, `getRoastersByCoffeeName(n, limit)` returns the
roasters of the coffee rows named `n`, taken in descending order of coffee id
and cut to `limit`, without removing repeated roasters: when at most `limit`
rows carry the name, the result has as many elements as there are such rows.
It holds under every query plan. -/
theorem roasters_by_coffee_name (st : Store) (plan : Int → Int) (n : String) (limit : Int)
    (hl : 1 ≤ limit) :
    ∃ rows : List CoffeeRow,
      rows.Perm (st.coffees.filter fun c => c.name = n) ∧
      rows.Pairwise (fun a b => b.id ≤ a.id) ∧
      (SQLiteDB.planned st plan).getRoastersByCoffeeName n limit =
        ((rows.take limit.toNat).map CoffeeRow.roaster, none) ∧
      ((((st.coffees.filter fun c => c.name = n).length : Nat) : Int) ≤ limit →
        ((SQLiteDB.planned st plan).getRoastersByCoffeeName n limit).1.length =
          (st.coffees.filter fun c => c.name = n).length) := by
  have h0 : 0 ≤ limit := by omega
  have hperm := perm_orderByDesc CoffeeRow.id (st.coffees.filter fun c => c.name = n)
  have heq : (SQLiteDB.planned st plan).getRoastersByCoffeeName n limit =
      (((orderByDesc CoffeeRow.id (st.coffees.filter fun c => c.name = n)).take
        limit.toNat).map CoffeeRow.roaster, none) := by
    rw [getRoastersByCoffeeName_eq, runLookup_planned]
    simp only [selectRoasters, sqlLimit_of_nonneg limit h0, List.map_take, SQLiteDB.planned]
  refine ⟨_, hperm, sorted_orderByDesc _ _, heq, ?_⟩
  intro hlen
  rw [heq]
  simp only [List.length_map, List.length_take, hperm.length_eq]
  omega

/-- Witness of C5: coffee "A" was added with roaster "R1" and then with roaster
"R2"; the lookup for "A" gives `["R2", "R1"]`. -/
theorem roasters_by_coffee_name_witness :
    (1 : Int) ≤ 10 ∧
      (SQLiteDB.healthy v60Store).getRoastersByCoffeeName "A" 10 = (["R2", "R1"], none) ∧
      ∃ rows : List CoffeeRow,
        rows.Perm (v60Store.coffees.filter fun c => c.name = "A") ∧
        rows.Pairwise (fun a b => b.id ≤ a.id) ∧
        (SQLiteDB.healthy v60Store).getRoastersByCoffeeName "A" 10 =
          ((rows.take (10 : Int).toNat).map CoffeeRow.roaster, none) ∧
        ((((v60Store.coffees.filter fun c => c.name = "A").length : Nat) : Int) ≤ 10 →
          ((SQLiteDB.healthy v60Store).getRoastersByCoffeeName "A" 10).1.length =
            (v60Store.coffees.filter fun c => c.name = "A").length) :=
  ⟨by decide, by decide, roasters_by_coffee_name v60Store (fun i => -i) "A" 10 (by decide)⟩

/-- A lookup of the shared shape that reports an error reports the failure text
of its own definition around the error of the transaction, with no list. -/
theorem runLookup_snd {α : Type} (s : SQLiteDB) (queryMsg failMsg : String)
    (q : Tx → List α) :
    (runLookup s queryMsg failMsg q).2 = none ∨
      ∃ inner, runLookup s queryMsg failMsg q = ([], some (.wrap failMsg inner)) := by
  unfold runLookup
  split
  · rename_i err _
    exact Or.inr ⟨err, rfl⟩
  · exact Or.inl rfl

/-- C6, on the code: a failing `getMostRecentlyUsedWaterWeights` returns no list
and wraps the error of the transaction, and the text it wraps it in names
`getMostRecentlyUsedCoffeeWeights`; on a handle whose transaction cannot be
opened ("database is locked") the message reads as a failure of the coffee
weight lookup. -/
theorem waterWeights_failure_names_coffeeWeights :
    (∀ (s : SQLiteDB) (m g : String) (limit : Int),
      (s.getMostRecentlyUsedWaterWeights m g limit).2 = none ∨
        ∃ inner, s.getMostRecentlyUsedWaterWeights m g limit =
          ([], some (.wrap
            "buna: input_suggestions: getMostRecentlyUsedCoffeeWeights transaction failed: "
            inner))) ∧
      lockedDB.getMostRecentlyUsedWaterWeights "V60" "Comandante" 10 =
        ([], some (.wrap
          "buna: input_suggestions: getMostRecentlyUsedCoffeeWeights transaction failed: "
          (.base "database is locked"))) ∧
      ((lockedDB.getMostRecentlyUsedWaterWeights "V60" "Comandante" 10).2.map
          GoError.message) =
        some ("buna: input_suggestions: getMostRecentlyUsedCoffeeWeights transaction failed: "
          ++ "database is locked") := by
  refine ⟨?_, by decide, by decide⟩
  intro s m g limit
  rw [getMostRecentlyUsedWaterWeights_eq]
  exact runLookup_snd _ _ _ _

/-- C7 fails as stated: the store of the V60 sessions has a session that brewed
coffee "B", and with limit 0 `getMostRecentBrewedCoffeeNames` returns no row. -/
theorem limit_zero_counterexample :
    brewedCoffee v60Store 3 "B" ∧
      (SQLiteDB.healthy v60Store).getMostRecentBrewedCoffeeNames 0 = ([], none) :=
  ⟨⟨⟨3, 3, 1, 1, 15, 240⟩, by decide, ⟨3, "B", "R1"⟩, by decide, rfl, rfl, rfl⟩, by decide⟩

/-- C7 amended: with limit 0 each of the six lookups returns no row, on every
handle; a default count exists only in `displayCoffeesByLastAdded`, which asks
`getCoffeesByLastAdded` for `defaultDisplayAmount` (15) rows when the limit
entered is 0. -/
theorem limit_zero_returns_no_rows (s : SQLiteDB) (name m g : String) (w : World) :
    (s.getMostRecentBrewedCoffeeNames 0).1 = [] ∧
      (s.getMostRecentlyUsedBrewingMethodNames 0).1 = [] ∧
      (s.getMostRecentlyUsedCoffeeGrinderNames 0).1 = [] ∧
      (s.getMostRecentlyUsedCoffeeWeights m g 0).1 = [] ∧
      (s.getMostRecentlyUsedWaterWeights m g 0).1 = [] ∧
      (s.getRoastersByCoffeeName name 0).1 = [] ∧
      (w.intInput w.asked = (0, false) →
        (displayCoffeesByLastAdded w).2.lastAddedCalls = w.lastAddedCalls ++ [15]) := by
  have hz : ∀ {α : Type} (l : List α), sqlLimit 0 l = [] := by
    intro α l
    simp [sqlLimit]
  refine ⟨?_, ?_, ?_, ?_, ?_, ?_, ?_⟩
  · rw [getMostRecentBrewedCoffeeNames_eq]
    exact runLookup_fst_prop (fun l => l = []) rfl _ _ _ _ (hz _)
  · rw [getMostRecentlyUsedBrewingMethodNames_eq]
    exact runLookup_fst_prop (fun l => l = []) rfl _ _ _ _ (hz _)
  · rw [getMostRecentlyUsedCoffeeGrinderNames_eq]
    exact runLookup_fst_prop (fun l => l = []) rfl _ _ _ _ (hz _)
  · rw [getMostRecentlyUsedCoffeeWeights_eq]
    exact runLookup_fst_prop (fun l => l = []) rfl _ _ _ _ (hz _)
  · rw [getMostRecentlyUsedWaterWeights_eq]
    exact runLookup_fst_prop (fun l => l = []) rfl _ _ _ _ (hz _)
  · rw [getRoastersByCoffeeName_eq]
    exact runLookup_fst_prop (fun l => l = []) rfl _ _ _ _ (hz _)
  · intro hin
    simp only [displayCoffeesByLastAdded, validateIntInput, World.print, World.println, hin,
      getCoffeesByLastAdded, defaultDisplayAmount]
    cases h1 : (w.lastAdded 15).2 with
    | some e => simp [h1]
    | none =>
      cases h2 : w.terminalSize.2 with
      | some e => simp [h1, h2]
      | none => simp [h1, h2]

/-- Witness of C7 amended: in the sample session the limit entered is 0 and
`getCoffeesByLastAdded` is asked for 15 rows. -/
theorem limit_zero_returns_no_rows_witness :
    sampleWorld.intInput sampleWorld.asked = (0, false) ∧
      (displayCoffeesByLastAdded sampleWorld).2.lastAddedCalls =
        sampleWorld.lastAddedCalls ++ [15] :=
  ⟨by decide,
    (limit_zero_returns_no_rows (SQLiteDB.healthy v60Store) "A" "V60" "Comandante"
      sampleWorld).2.2.2.2.2.2 (by decide)⟩

/-! ## Properties of the workflows -/

/-- C8: when one of the six prompts of `addCoffee` answers quit, `addCoffee`
returns the zero coffee and a nil error, makes no call of `insertCoffee`, and
asks no prompt after the first one that answered quit (prompt `k`, after which
`k + 1` prompts have been asked). -/
theorem addCoffee_quit (w : World) (h : ∃ k, k < 6 ∧ promptQuit w k = true) :
    (addCoffee w).1 = (coffee.zero, none) ∧
      (addCoffee w).2.insertCalls = w.insertCalls ∧
      ∃ k, k < 6 ∧ promptQuit w k = true ∧ (∀ j, j < k → promptQuit w j = false) ∧
        (addCoffee w).2.asked = w.asked + (k + 1) := by
  by_cases h0 : (w.strInput w.asked).2 = true
  · refine ⟨?_, ?_, 0, by omega, by simp [promptQuit, h0], by simp, ?_⟩ <;>
      simp [addCoffee, validateStrInput, World.print, World.println, h0]
  by_cases h1 : (w.strInput (w.asked + 1)).2 = true
  · refine ⟨?_, ?_, 1, by omega, by simp [promptQuit, h1], ?_, ?_⟩
    · simp [addCoffee, validateStrInput, World.print, World.println, h0, h1]
    · simp [addCoffee, validateStrInput, World.print, World.println, h0, h1]
    · intro j hj
      interval_cases j
      simpa [promptQuit] using h0
    · simp [addCoffee, validateStrInput, World.print, World.println, h0, h1]
  by_cases h2 : (w.strInput (w.asked + 2)).2 = true
  · refine ⟨?_, ?_, 2, by omega, by simp [promptQuit, h2], ?_, ?_⟩
    · simp [addCoffee, validateStrInput, World.print, World.println, h0, h1, h2, add_assoc]
    · simp [addCoffee, validateStrInput, World.print, World.println, h0, h1, h2, add_assoc]
    · intro j hj
      interval_cases j
      · simpa [promptQuit] using h0
      · simpa [promptQuit] using h1
    · simp [addCoffee, validateStrInput, World.print, World.println, h0, h1, h2, add_assoc]
  by_cases h3 : (w.strInput (w.asked + 3)).2 = true
  · refine ⟨?_, ?_, 3, by omega, by simp [promptQuit, h3], ?_, ?_⟩
    · simp [addCoffee, validateStrInput, World.print, World.println, h0, h1, h2, h3, add_assoc]
    · simp [addCoffee, validateStrInput, World.print, World.println, h0, h1, h2, h3, add_assoc]
    · intro j hj
      interval_cases j
      · simpa [promptQuit] using h0
      · simpa [promptQuit] using h1
      · simpa [promptQuit] using h2
    · simp [addCoffee, validateStrInput, World.print, World.println, h0, h1, h2, h3, add_assoc]
  by_cases h4 : (w.strInput (w.asked + 4)).2 = true
  · refine ⟨?_, ?_, 4, by omega, by simp [promptQuit, h4], ?_, ?_⟩
    · simp [addCoffee, validateStrInput, World.print, World.println, h0, h1, h2, h3, h4,
        add_assoc]
    · simp [addCoffee, validateStrInput, World.print, World.println, h0, h1, h2, h3, h4,
        add_assoc]
    · intro j hj
      interval_cases j
      · simpa [promptQuit] using h0
      · simpa [promptQuit] using h1
      · simpa [promptQuit] using h2
      · simpa [promptQuit] using h3
    · simp [addCoffee, validateStrInput, World.print, World.println, h0, h1, h2, h3, h4,
        add_assoc]
  by_cases h5 : (w.boolInput (w.asked + 5)).2 = true
  · refine ⟨?_, ?_, 5, by omega, by simp [promptQuit, h5], ?_, ?_⟩
    · simp [addCoffee, validateStrInput, validateBoolInput, World.print, World.println, h0, h1,
        h2, h3, h4, h5, add_assoc]
    · simp [addCoffee, validateStrInput, validateBoolInput, World.print, World.println, h0, h1,
        h2, h3, h4, h5, add_assoc]
    · intro j hj
      interval_cases j
      · simpa [promptQuit] using h0
      · simpa [promptQuit] using h1
      · simpa [promptQuit] using h2
      · simpa [promptQuit] using h3
      · simpa [promptQuit] using h4
    · simp [addCoffee, validateStrInput, validateBoolInput, World.print, World.println, h0, h1,
        h2, h3, h4, h5, add_assoc]
  exfalso
  obtain ⟨k, hk, hq⟩ := h
  interval_cases k
  · exact h0 (by simpa [promptQuit] using hq)
  · exact h1 (by simpa [promptQuit] using hq)
  · exact h2 (by simpa [promptQuit] using hq)
  · exact h3 (by simpa [promptQuit] using hq)
  · exact h4 (by simpa [promptQuit] using hq)
  · exact h5 (by simpa [promptQuit] using hq)

/-- Witness of C8: in the sample session the third prompt answers quit. -/
theorem addCoffee_quit_witness :
    (∃ k, k < 6 ∧ promptQuit sampleWorld k = true) ∧
      (addCoffee sampleWorld).1 = (coffee.zero, none) ∧
      (addCoffee sampleWorld).2.insertCalls = sampleWorld.insertCalls ∧
      ∃ k, k < 6 ∧ promptQuit sampleWorld k = true ∧
        (∀ j, j < k → promptQuit sampleWorld j = false) ∧
        (addCoffee sampleWorld).2.asked = sampleWorld.asked + (k + 1) :=
  ⟨⟨2, by decide, by decide⟩, addCoffee_quit sampleWorld ⟨2, by decide, by decide⟩⟩

/-- C9: when none of the six prompts answers quit, `addCoffee` calls
`insertCoffee` once, with the coffee made of the six answers in prompt order;
when the insert succeeds it returns that coffee and a nil error, and when the
insert fails it returns the zero coffee and the insert error wrapped. -/
theorem addCoffee_inserts (w : World) (h : ∀ k, k < 6 → promptQuit w k = false) :
    (addCoffee w).2.insertCalls = w.insertCalls ++ [answeredCoffee w] ∧
      (w.insertResult (answeredCoffee w) = none →
        (addCoffee w).1 = (answeredCoffee w, none)) ∧
      (∀ e, w.insertResult (answeredCoffee w) = some e →
        (addCoffee w).1 =
          (coffee.zero, some (.wrap "buna: coffee: failed to insert coffee: " e))) := by
  have h0 : (w.strInput w.asked).2 = false := by simpa [promptQuit] using h 0 (by omega)
  have h1 : (w.strInput (w.asked + 1)).2 = false := by simpa [promptQuit] using h 1 (by omega)
  have h2 : (w.strInput (w.asked + 2)).2 = false := by simpa [promptQuit] using h 2 (by omega)
  have h3 : (w.strInput (w.asked + 3)).2 = false := by simpa [promptQuit] using h 3 (by omega)
  have h4 : (w.strInput (w.asked + 4)).2 = false := by simpa [promptQuit] using h 4 (by omega)
  have h5 : (w.boolInput (w.asked + 5)).2 = false := by simpa [promptQuit] using h 5 (by omega)
  cases hi : w.insertResult (answeredCoffee w) with
  | none =>
    have hi2 := hi
    simp only [answeredCoffee] at hi2
    simp only [addCoffee, validateStrInput, validateBoolInput, insertCoffee, World.print,
      World.println, h0, h1, h2, h3, h4, h5, add_assoc, Nat.reduceAdd, Bool.false_eq_true,
      if_false, ↓reduceIte, hi2, answeredCoffee]
    simp
  | some e =>
    have hi2 := hi
    simp only [answeredCoffee] at hi2
    simp only [addCoffee, validateStrInput, validateBoolInput, insertCoffee, World.print,
      World.println, h0, h1, h2, h3, h4, h5, add_assoc, Nat.reduceAdd, Bool.false_eq_true,
      if_false, ↓reduceIte, hi2, answeredCoffee]
    simp

/-- Witness of C9: the session in which all six prompts are answered. -/
theorem addCoffee_inserts_witness :
    (∀ k, k < 6 → promptQuit answeringWorld k = false) ∧
      (addCoffee answeringWorld).2.insertCalls =
        [⟨"Kenya AA", "Roastery", "Nyeri, Kenya", "SL28", "Washed", false⟩] ∧
      (addCoffee answeringWorld).1 =
        (⟨"Kenya AA", "Roastery", "Nyeri, Kenya", "SL28", "Washed", false⟩, none) :=
  ⟨by decide,
    (addCoffee_inserts answeringWorld (by decide)).1,
    (addCoffee_inserts answeringWorld (by decide)).2.1 (by decide)⟩

/-- C10 fails as stated: in the sample session the selection entered is 3, which
is no offered option; `runRetrieveCoffeeSelection` returns an error for it and
`retrieveCoffee` returns that error, wrapped, to its caller. -/
theorem invalid_selection_counterexample :
    (runRetrieveCoffeeSelection sampleWorld 3).1 =
        some (.base "buna: coffee: invalid retrieve selection") ∧
      sampleWorld.intSelection sampleWorld.asked = (3, false, none) ∧
      (retrieveCoffee sampleWorld).1 =
        some (.wrap "buna: coffee: failed to run the retrieve selection: "
          (.base "buna: coffee: invalid retrieve selection")) := by
  decide

/-- C10 amended: for every selection other than 0, `runRetrieveCoffeeSelection`
returns the error "buna: coffee: invalid retrieve selection" and does nothing
else; and when `displayIntOptions` succeeds and `getIntSelection` hands back
such a selection (no quit, no error), `retrieveCoffee` returns that error
wrapped to its caller, having asked that one prompt only. -/
theorem invalid_selection_is_returned (w : World) (selection : Int) (hs : selection ≠ 0) :
    (runRetrieveCoffeeSelection w selection).1 =
        some (.base "buna: coffee: invalid retrieve selection") ∧
      (runRetrieveCoffeeSelection w selection).2.asked = w.asked ∧
      (runRetrieveCoffeeSelection w selection).2.out = w.out ∧
      (w.displayOptionsErr = none → w.intSelection w.asked = (selection, false, none) →
        (retrieveCoffee w).1 =
            some (.wrap "buna: coffee: failed to run the retrieve selection: "
              (.base "buna: coffee: invalid retrieve selection")) ∧
          (retrieveCoffee w).2.asked = w.asked + 1) := by
  refine ⟨?_, ?_, ?_, ?_⟩
  · simp [runRetrieveCoffeeSelection, hs]
  · simp [runRetrieveCoffeeSelection, hs]
  · simp [runRetrieveCoffeeSelection, hs]
  · intro hd hsel
    simp [retrieveCoffee, displayIntOptions, getIntSelection, World.println, hd, hsel,
      runRetrieveCoffeeSelection, hs]

/-- Witness of C10 amended: selection 3 in the sample session. -/
theorem invalid_selection_is_returned_witness :
    (3 : Int) ≠ 0 ∧
      (runRetrieveCoffeeSelection sampleWorld 3).1 =
        some (.base "buna: coffee: invalid retrieve selection") ∧
      (retrieveCoffee sampleWorld).2.asked = sampleWorld.asked + 1 :=
  ⟨by decide, (invalid_selection_is_returned sampleWorld 3 (by decide)).1,
    ((invalid_selection_is_returned sampleWorld 3 (by decide)).2.2.2 (by decide)
      (by decide)).2⟩

end Buna
